import Mathlib

/-!
Shallow embedding of the femsa-mobile repository.

Part A embeds `src/lab-3/part-4/ProductCatalogViewModel.ts`: a view-model
holding a mutable list of products and a list of observer callbacks.
TypeScript callbacks are compared by reference identity (`obs !== observer`),
so an observer is modelled as an opaque identity token (`Nat`); the
side-effect of `notifyObservers` is modelled as the list of observer
identities invoked, in invocation order (the trace).  Mutating methods
return the new state together with that trace.

Part B embeds the `Button` and `InputField` components from
`src/lab-1/component-library/README.md`.  React rendering is modelled as a
pure function from props to either a thrown error (`Except.error`) or a
rendered value; the `InputField` change handler is modelled as the pure
function from the new text value to the error message it stores.
-/

/-- An observer callback, identified by reference identity. -/
abbrev Observer := Nat

/-- `Product` as used by the view model: `id`, `name`, `price`, `quantity`.
`price` carries a numeric value that the view model never computes with. -/
structure Product where
  id : Int
  name : String
  price : Rat
  quantity : Int
  deriving Repr, DecidableEq

/-- The state of a `ProductCatalogViewModel`: its `products` array and its
`observers` array. -/
structure ProductCatalogViewModel where
  products : List Product
  observers : List Observer
  deriving Repr, DecidableEq

namespace ProductCatalogViewModel

/-- The constructor: `this.products = []; this.observers = []`. -/
def new : ProductCatalogViewModel := { products := [], observers := [] }

/-- `notifyObservers`: invokes every registered observer in order.  Modelled
as the trace of invoked observer identities. -/
def notifyObservers (s : ProductCatalogViewModel) : List Observer :=
  s.observers

/-- `addProduct`: pushes the product onto `this.products`, then calls
`notifyObservers`.  Returns the new state and the invocation trace. -/
def addProduct (p : Product) (s : ProductCatalogViewModel) :
    ProductCatalogViewModel × List Observer :=
  let s' := { s with products := s.products ++ [p] }
  (s', s'.notifyObservers)

/-- In-place mutation `product.quantity = newQuantity` of the product found
by `this.products.find(p => p.id === productId)`: the first element whose
`id` matches has its `quantity` field replaced; everything else is kept. -/
def updateFirst (productId newQuantity : Int) : List Product → List Product
  | [] => []
  | p :: ps =>
      if p.id = productId then { p with quantity := newQuantity } :: ps
      else p :: updateFirst productId newQuantity ps

/-- `updateQuantity`: `find` the first product with the given id; if found,
mutate its `quantity` in place and call `notifyObservers`; otherwise do
nothing.  Returns the new state and the invocation trace. -/
def updateQuantity (productId newQuantity : Int) (s : ProductCatalogViewModel) :
    ProductCatalogViewModel × List Observer :=
  match s.products.find? (fun p => p.id == productId) with
  | some _ =>
      let s' := { s with products := updateFirst productId newQuantity s.products }
      (s', s'.notifyObservers)
  | none => (s, [])

/-- `getProducts`: returns `this.products`. -/
def getProducts (s : ProductCatalogViewModel) : List Product :=
  s.products

/-- `addObserver`: pushes the callback onto `this.observers`. -/
def addObserver (o : Observer) (s : ProductCatalogViewModel) :
    ProductCatalogViewModel :=
  { s with observers := s.observers ++ [o] }

/-- `removeObserver`: `this.observers = this.observers.filter(obs => obs !== observer)`. -/
def removeObserver (o : Observer) (s : ProductCatalogViewModel) :
    ProductCatalogViewModel :=
  { s with observers := s.observers.filter (fun obs => obs != o) }

/-- One call on the view model, for reasoning about call sequences. -/
inductive Action where
  | add (p : Product)
  | update (productId newQuantity : Int)
  | addObs (o : Observer)
  | remObs (o : Observer)
  deriving Repr, DecidableEq

/-- Execute one call, returning the new state and the trace of observer
invocations the call performed. -/
def step (a : Action) (s : ProductCatalogViewModel) :
    ProductCatalogViewModel × List Observer :=
  match a with
  | .add p => s.addProduct p
  | .update productId newQuantity => s.updateQuantity productId newQuantity
  | .addObs o => (s.addObserver o, [])
  | .remObs o => (s.removeObserver o, [])

/-- Execute a sequence of calls, collecting each call's invocation trace. -/
def runTraces : List Action → ProductCatalogViewModel → List (List Observer)
  | [], _ => []
  | a :: rest, s => (step a s).2 :: runTraces rest (step a s).1

/-- Execute a sequence of `addProduct` calls, keeping only the states. -/
def runAdds (ps : List Product) (s : ProductCatalogViewModel) :
    ProductCatalogViewModel :=
  ps.foldl (fun s p => (s.addProduct p).1) s

end ProductCatalogViewModel

namespace ComponentLibrary

/-- The rendered output of the `Button` component: the displayed text,
whether the touchable is disabled, and whether the gray disabled style is
applied (`disabled && styles.disabled`). -/
structure RenderedButton where
  text : String
  disabled : Bool
  grayStyle : Bool
  deriving Repr, DecidableEq

/-- `isValidVariant`: `["primary", "secondary", "tertiary"].includes(variant || "")`.
An omitted (`undefined`) variant is modelled as `none`; `variant || ""`
replaces it by the empty string before the membership test. -/
def isValidVariant (variant : Option String) : Bool :=
  ["primary", "secondary", "tertiary"].contains (variant.getD "")

/-- The `Button` component body: throws `"Invalid variant"` when
`isValidVariant` rejects the `variant` prop, otherwise renders the
touchable with `String(value)` as its text.  `value` is modelled after the
`String(value)` conversion; a thrown error is `Except.error`. -/
def Button (value : String) (disabled : Option Bool) (variant : Option String) :
    Except String RenderedButton :=
  if !isValidVariant variant then
    Except.error "Invalid variant"
  else
    Except.ok { text := value
                disabled := disabled.getD false
                grayStyle := disabled.getD false }

/-- The two members of the `ErrorType` union: `"minLength" | "maxLength"`. -/
inductive ErrorType where
  | minLength
  | maxLength
  deriving Repr, DecidableEq

/-- `getInitialValue`: converts a numeric initial value to a string, keeps a
string as is.  The `string | number` input is modelled as a sum. -/
def getInitialValue (value : String ⊕ Int) : String :=
  match value with
  | .inr n => toString n
  | .inl s => s

/-- `getErrorMessage`: the inline message for each error kind.  The TS
`default` branch is unreachable for a well-typed `ErrorType`. -/
def getErrorMessage (value : String) (error : ErrorType) : String :=
  match error with
  | .minLength => "The value \"" ++ value ++ "\" is too short"
  | .maxLength => "The value \"" ++ value ++ "\" is too long"

/-- The `errorMessage` state stored by the `InputField` change handler
`handleChange`: inputs shorter than 5 characters store the `minLength`
message, all others store `""`. -/
def handleChange (value : String) : String :=
  if value.length < 5 then getErrorMessage value ErrorType.minLength
  else ""

end ComponentLibrary

open ProductCatalogViewModel ComponentLibrary

section Helpers

/-- Filtering out `f` by identity removes every occurrence of `f`. -/
lemma filter_ne_self_not_mem (f : Observer) (l : List Observer) :
    f ∉ l.filter (fun obs => obs != f) := by
  simp

/-- Filtering out `f` by identity keeps every occurrence of any `g ≠ f`. -/
lemma filter_ne_count_other (f g : Observer) (h : g ≠ f) (l : List Observer) :
    (l.filter (fun obs => obs != f)).count g = l.count g := by
  rw [List.count_filter]
  simp [h]

/-- `updateFirst` rewrites exactly the first element whose id matches. -/
lemma updateFirst_split (pid q : Int) (l1 : List Product) (p : Product)
    (l2 : List Product) (hp : p.id = pid) (hl1 : ∀ x ∈ l1, x.id ≠ pid) :
    updateFirst pid q (l1 ++ p :: l2) = l1 ++ { p with quantity := q } :: l2 := by
  induction l1 with
  | nil => simp [updateFirst, hp]
  | cons a l1 ih =>
      have ha : a.id ≠ pid := hl1 a (by simp)
      simp only [List.cons_append, updateFirst, if_neg ha]
      have := ih (fun x hx => hl1 x (by simp [hx]))
      simp [this]

/-- When some product matches, `find?` succeeds. -/
lemma find?_isSome_of_split (pid : Int) (l1 : List Product) (p : Product)
    (l2 : List Product) (hp : p.id = pid) :
    ((l1 ++ p :: l2).find? (fun x => x.id == pid)).isSome = true := by
  rw [List.find?_isSome]
  exact ⟨p, by simp, by simp [hp]⟩

/-- When no product matches, `find?` fails. -/
lemma find?_eq_none_of_no_match (pid : Int) (l : List Product)
    (h : ∀ x ∈ l, x.id ≠ pid) :
    l.find? (fun x => x.id == pid) = none := by
  rw [List.find?_eq_none]
  intro x hx
  simp [h x hx]

/-- `updateQuantity` on a state with no matching product returns the state
unchanged with an empty invocation trace. -/
lemma updateQuantity_no_match (s : ProductCatalogViewModel) (pid q : Int)
    (h : ∀ p ∈ s.products, p.id ≠ pid) :
    updateQuantity pid q s = (s, []) := by
  simp [updateQuantity, find?_eq_none_of_no_match pid s.products h]

/-- `updateQuantity` on a state whose products split around the first match:
the new product list and the invocation trace. -/
lemma updateQuantity_split (s : ProductCatalogViewModel) (pid q : Int)
    (l1 : List Product) (p : Product) (l2 : List Product)
    (hs : s.products = l1 ++ p :: l2) (hp : p.id = pid)
    (hl1 : ∀ x ∈ l1, x.id ≠ pid) :
    updateQuantity pid q s =
      ({ s with products := l1 ++ { p with quantity := q } :: l2 }, s.observers) := by
  have hfind : ((s.products).find? (fun x => x.id == pid)).isSome = true := by
    rw [hs]; exact find?_isSome_of_split pid l1 p l2 hp
  rcases Option.isSome_iff_exists.mp hfind with ⟨x, hx⟩
  simp only [updateQuantity, hx, notifyObservers]
  rw [hs, updateFirst_split pid q l1 p l2 hp hl1]

/-- No view-model call other than `addObserver f` can bring `f` back into
the observer list. -/
lemma step_preserves_not_registered (f : Observer) (a : Action)
    (s : ProductCatalogViewModel) (ha : a ≠ Action.addObs f)
    (h : f ∉ s.observers) : f ∉ (step a s).1.observers := by
  cases a with
  | add p => simpa [step, addProduct] using h
  | update pid q =>
      unfold step updateQuantity
      cases hf : s.products.find? (fun p => p.id == pid) <;> simpa [hf] using h
  | addObs o =>
      have ho : f ≠ o := by
        intro hof
        exact ha (by rw [hof])
      simp [step, addObserver, h, ho]
  | remObs o =>
      intro hmem
      simp only [step, removeObserver] at hmem
      exact h (List.mem_of_mem_filter hmem)

/-- A call made while `f` is not registered never invokes `f`. -/
lemma step_trace_not_registered (f : Observer) (a : Action)
    (s : ProductCatalogViewModel) (h : f ∉ s.observers) :
    f ∉ (step a s).2 := by
  cases a with
  | add p => simp [step, addProduct, notifyObservers, h]
  | update pid q =>
      unfold step updateQuantity
      cases hf : s.products.find? (fun p => p.id == pid) <;>
        simp [hf, notifyObservers, h]
  | addObs o => simp [step]
  | remObs o => simp [step]

/-- Along any call sequence that never re-registers `f`, starting from a
state where `f` is not registered, no call ever invokes `f`. -/
lemma runTraces_not_registered (f : Observer) :
    ∀ (acts : List Action) (s : ProductCatalogViewModel),
      f ∉ s.observers → (∀ a ∈ acts, a ≠ Action.addObs f) →
      ∀ tr ∈ runTraces acts s, f ∉ tr := by
  intro acts
  induction acts with
  | nil => intro s _ _ tr htr; simp [runTraces] at htr
  | cons a rest ih =>
      intro s hs hacts tr htr
      rw [runTraces] at htr
      rcases List.mem_cons.mp htr with h | h
      · subst h
        exact step_trace_not_registered f a s hs
      · exact ih ((step a s).1)
          (step_preserves_not_registered f a s (hacts a (by simp)) hs)
          (fun a' ha' => hacts a' (by simp [ha'])) tr h

end Helpers

/-- Claim C1, counterexample: with one subscriber registered and an empty
catalog, `updateQuantity` on a missing product id invokes the subscriber
zero times, not exactly once, contradicting the claim that every
`updateQuantity` call notifies regardless of whether the id exists. -/
theorem updateQuantity_missing_id_no_notification_cex :
    (0 : Observer) ∈ (⟨[], [0]⟩ : ProductCatalogViewModel).observers ∧
    ¬ ((updateQuantity 1 5 ⟨[], [0]⟩).2.count 0 = 1) := by
  constructor
  · simp
  · decide

/-- Claim C1, amended: every `addProduct` call invokes exactly the
subscribers registered at the time of the call, once per registration and
in registration order, before returning; an `updateQuantity` call does the
same when the product id is found, and invokes no subscriber when it is
not found. -/
theorem notification_trace_eq_registered_observers
    (s : ProductCatalogViewModel) (p : Product) (pid q : Int) :
    (s.addProduct p).2 = s.observers ∧
    (s.updateQuantity pid q).2 =
      (if (s.products.find? (fun pr => pr.id == pid)).isSome
       then s.observers else []) := by
  refine ⟨rfl, ?_⟩
  unfold updateQuantity
  cases hf : s.products.find? (fun pr => pr.id == pid) <;> simp [hf, notifyObservers]

/-- Claim C2: `updateQuantity id q` with an id whose first occurrence is
the product `p` replaces exactly `p`'s quantity by `q`, keeping `p`'s
other fields and every other product unchanged; with an id matching no
product, the whole state is unchanged. -/
theorem updateQuantity_frame (s : ProductCatalogViewModel) (pid q : Int) :
    ((∀ p ∈ s.products, p.id ≠ pid) → (s.updateQuantity pid q).1 = s) ∧
    (∀ (l1 : List Product) (p : Product) (l2 : List Product),
      s.products = l1 ++ p :: l2 → p.id = pid → (∀ x ∈ l1, x.id ≠ pid) →
      (s.updateQuantity pid q).1.products =
          l1 ++ { p with quantity := q } :: l2 ∧
        (s.updateQuantity pid q).1.observers = s.observers) := by
  constructor
  · intro h
    rw [updateQuantity_no_match s pid q h]
  · intro l1 p l2 hs hp hl1
    rw [updateQuantity_split s pid q l1 p l2 hs hp hl1]
    exact ⟨rfl, rfl⟩

/-- Claim C2, witness: evaluating both cases of `updateQuantity_frame` on
concrete states. -/
theorem updateQuantity_frame_witness :
    ((⟨[⟨1, "Apple", 1, 100⟩], [0]⟩ :
        ProductCatalogViewModel).updateQuantity 2 9).1 =
      ⟨[⟨1, "Apple", 1, 100⟩], [0]⟩ ∧
    ((⟨[⟨1, "Apple", 1, 100⟩], [0]⟩ :
        ProductCatalogViewModel).updateQuantity 1 80).1.products =
      [⟨1, "Apple", 1, 80⟩] := by
  constructor
  · exact (updateQuantity_frame ⟨[⟨1, "Apple", 1, 100⟩], [0]⟩ 2 9).1
      (by intro p hp; simp at hp; simp [hp])
  · have h := ((updateQuantity_frame ⟨[⟨1, "Apple", 1, 100⟩], [0]⟩ 1 80).2
      [] ⟨1, "Apple", 1, 100⟩ [] rfl rfl (by simp)).1
    simpa using h

/-- Claim C3: starting from a freshly constructed view model, any sequence
of `addProduct` calls (duplicate ids included, nothing validated or
rejected) leaves `getProducts` returning exactly the added products in
insertion order. -/
theorem getProducts_after_adds (ps : List Product) :
    (runAdds ps ProductCatalogViewModel.new).getProducts = ps := by
  have key : ∀ (qs : List Product) (s : ProductCatalogViewModel),
      (runAdds qs s).products = s.products ++ qs := by
    intro qs
    induction qs with
    | nil => intro s; simp [runAdds]
    | cons p qs ih =>
        intro s
        simp only [runAdds, List.foldl_cons] at ih ⊢
        rw [ih, addProduct]
        simp
  simp [getProducts, key, ProductCatalogViewModel.new]

/-- Claim C4: `updateQuantity` is a total function that surfaces no error;
when the linear search finds no product with the given id it is a silent
no-op: the state is returned unchanged and no observer is invoked. -/
theorem updateQuantity_missing_id_silent_noop
    (s : ProductCatalogViewModel) (pid q : Int)
    (h : ∀ p ∈ s.products, p.id ≠ pid) :
    s.updateQuantity pid q = (s, []) :=
  updateQuantity_no_match s pid q h

/-- Claim C4, witness: a catalog holding only product id 1 is untouched by
`updateQuantity` on id 42. -/
theorem updateQuantity_missing_id_silent_noop_witness :
    (⟨[⟨1, "Apple", 1, 100⟩], [0]⟩ :
        ProductCatalogViewModel).updateQuantity 42 7 =
      (⟨[⟨1, "Apple", 1, 100⟩], [0]⟩, []) :=
  updateQuantity_missing_id_silent_noop ⟨[⟨1, "Apple", 1, 100⟩], [0]⟩ 42 7
    (by intro p hp; simp at hp; simp [hp])

/-- Claim C5: after `removeObserver f`, the callback `f` is no longer
registered and is never invoked by any later sequence of calls that does
not re-register it, while every other callback keeps all its
registrations; in particular any later `addProduct` still notifies each
other callback that was registered. -/
theorem removeObserver_permanently_silences
    (s : ProductCatalogViewModel) (f : Observer) :
    f ∉ (s.removeObserver f).observers ∧
    (∀ g, g ≠ f →
      (s.removeObserver f).observers.count g = s.observers.count g) ∧
    (∀ (p : Product) (g : Observer), g ≠ f → g ∈ s.observers →
      g ∈ ((s.removeObserver f).addProduct p).2) ∧
    (∀ acts : List Action, (∀ a ∈ acts, a ≠ Action.addObs f) →
      ∀ tr ∈ runTraces acts (s.removeObserver f), f ∉ tr) := by
  refine ⟨filter_ne_self_not_mem f s.observers, ?_, ?_, ?_⟩
  · intro g hg
    exact filter_ne_count_other f g hg s.observers
  · intro p g hg hmem
    simp only [addProduct, notifyObservers, removeObserver]
    exact List.mem_filter.mpr ⟨hmem, by simp [hg]⟩
  · intro acts hacts
    exact runTraces_not_registered f acts (s.removeObserver f)
      (filter_ne_self_not_mem f s.observers) hacts

/-- Claim C5, witness: removing callback 7 from `[7, 3]` leaves callback 3
registered and notified by a later `addProduct`, and the trace of that
later call does not contain 7. -/
theorem removeObserver_permanently_silences_witness :
    7 ∉ ((⟨[], [7, 3]⟩ : ProductCatalogViewModel).removeObserver 7).observers ∧
    ((⟨[], [7, 3]⟩ : ProductCatalogViewModel).removeObserver 7).observers.count 3 =
      ([7, 3] : List Observer).count 3 ∧
    3 ∈ (((⟨[], [7, 3]⟩ : ProductCatalogViewModel).removeObserver 7).addProduct
          ⟨1, "Apple", 1, 100⟩).2 ∧
    ∀ tr ∈ runTraces [Action.add ⟨1, "Apple", 1, 100⟩]
        ((⟨[], [7, 3]⟩ : ProductCatalogViewModel).removeObserver 7), 7 ∉ tr := by
  have h := removeObserver_permanently_silences ⟨[], [7, 3]⟩ 7
  exact ⟨h.1, h.2.1 3 (by decide),
    h.2.2.1 ⟨1, "Apple", 1, 100⟩ 3 (by decide) (by simp),
    h.2.2.2 [Action.add ⟨1, "Apple", 1, 100⟩] (by simp)⟩

/-- Claim C8: when several products share the same id, `updateQuantity`
rewrites only the first one in insertion order: with `p` the first match
and a later duplicate present in the tail `l2`, the result keeps `l2`
(and `l1`) verbatim and changes only `p`'s quantity. -/
theorem updateQuantity_first_duplicate_only
    (s : ProductCatalogViewModel) (pid q : Int)
    (l1 : List Product) (p : Product) (l2 : List Product)
    (hs : s.products = l1 ++ p :: l2) (hp : p.id = pid)
    (hl1 : ∀ x ∈ l1, x.id ≠ pid) (_hdup : ∃ x ∈ l2, x.id = pid) :
    (s.updateQuantity pid q).1.products = l1 ++ { p with quantity := q } :: l2 := by
  rw [updateQuantity_split s pid q l1 p l2 hs hp hl1]

/-- Claim C8, witness: two products with id 1; updating id 1 to quantity 99
changes the first and leaves the duplicate untouched. -/
theorem updateQuantity_first_duplicate_only_witness :
    ((⟨[⟨1, "Apple", 1, 100⟩, ⟨1, "Clone", 2, 50⟩], []⟩ :
        ProductCatalogViewModel).updateQuantity 1 99).1.products =
      [⟨1, "Apple", 1, 99⟩, ⟨1, "Clone", 2, 50⟩] := by
  have h := updateQuantity_first_duplicate_only
    ⟨[⟨1, "Apple", 1, 100⟩, ⟨1, "Clone", 2, 50⟩], []⟩ 1 99
    [] ⟨1, "Apple", 1, 100⟩ [⟨1, "Clone", 2, 50⟩] rfl rfl (by simp)
    ⟨⟨1, "Clone", 2, 50⟩, by simp, rfl⟩
  simpa using h

/-- Claim C9: `removeObserver f` removes every occurrence of `f` from the
subscriber list, however many times `f` was registered, and keeps the
registration count of every other callback. -/
theorem removeObserver_removes_all_occurrences
    (s : ProductCatalogViewModel) (f : Observer) :
    (s.removeObserver f).observers.count f = 0 ∧
    ∀ g, g ≠ f → (s.removeObserver f).observers.count g = s.observers.count g := by
  constructor
  · exact List.count_eq_zero.mpr (filter_ne_self_not_mem f s.observers)
  · intro g hg
    exact filter_ne_count_other f g hg s.observers

/-- Claim C9, witness: callback 5 registered twice in `[5, 3, 5]`; one
`removeObserver 5` call deletes both occurrences and keeps callback 3. -/
theorem removeObserver_removes_all_occurrences_witness :
    ((⟨[], [5, 3, 5]⟩ : ProductCatalogViewModel).removeObserver 5).observers.count 5 = 0 ∧
    ((⟨[], [5, 3, 5]⟩ : ProductCatalogViewModel).removeObserver 5).observers.count 3 =
      ([5, 3, 5] : List Observer).count 3 := by
  have h := removeObserver_removes_all_occurrences ⟨[], [5, 3, 5]⟩ 5
  exact ⟨h.1, h.2 3 (by decide)⟩

/-- The `InputField` change handler can never produce the `maxLength`
message for the value it was given: its two branches store the `minLength`
message or the empty string, and both differ in length from the
`maxLength` message. -/
lemma handleChange_ne_maxLength (v : String) :
    handleChange v ≠ getErrorMessage v ErrorType.maxLength := by
  intro h
  have l1 : ("The value \"" : String).length = 11 := rfl
  have l2 : ("\" is too short" : String).length = 14 := rfl
  have l3 : ("\" is too long" : String).length = 13 := rfl
  by_cases hv : v.length < 5
  · rw [handleChange, if_pos hv] at h
    have hlen := congrArg String.length h
    simp only [getErrorMessage, String.length_append, l1, l2, l3] at hlen
    omega
  · rw [handleChange, if_neg hv] at h
    have hlen := congrArg String.length h
    simp only [getErrorMessage, String.length_append, l1, l3,
      String.length_empty] at hlen
    omega

/-- Claim C6: `Button` throws `"Invalid variant"` on any variant value
outside `"primary"`, `"secondary"`, `"tertiary"`, and renders without
throwing on each of those three values. -/
theorem button_variant_fail_fast (val : String) (d : Option Bool) (v : String) :
    (v = "primary" ∨ v = "secondary" ∨ v = "tertiary" →
      (Button val d (some v)).isOk = true) ∧
    (v ≠ "primary" → v ≠ "secondary" → v ≠ "tertiary" →
      Button val d (some v) = Except.error "Invalid variant") := by
  constructor
  · rintro (h | h | h) <;> subst h <;> rfl
  · intro h1 h2 h3
    have hvalid : isValidVariant (some v) = false := by
      simp [isValidVariant, h1, h2, h3]
    simp [Button, hvalid]

/-- Claim C6, witness: `Button` renders with variant `"primary"` and throws
with variant `"banana"`. -/
theorem button_variant_fail_fast_witness :
    (Button "Ok" none (some "primary")).isOk = true ∧
    Button "Ok" none (some "banana") = Except.error "Invalid variant" :=
  ⟨(button_variant_fail_fast "Ok" none "primary").1 (Or.inl rfl),
    (button_variant_fail_fast "Ok" none "banana").2
      (by decide) (by decide) (by decide)⟩

/-- Claim C7, counterexample: no input value ever makes the change handler
store the `maxLength` ("too long") message; the handler covers only the
`minLength` error kind, refuting the claim that some too-long input
produces the "too long" message. -/
theorem handleChange_no_too_long_cex :
    ¬ ∃ v : String, handleChange v = getErrorMessage v ErrorType.maxLength := by
  rintro ⟨v, h⟩
  exact handleChange_ne_maxLength v h

/-- Claim C7, amended: the change handler computes a non-fatal inline
message for the `minLength` kind only: inputs shorter than 5 characters
store the "too short" message, all other inputs store the empty message,
and the "too long" (`maxLength`) message of `getErrorMessage` is never
produced. -/
theorem handleChange_minLength_message_only (v : String) :
    (v.length < 5 → handleChange v = getErrorMessage v ErrorType.minLength) ∧
    (5 ≤ v.length → handleChange v = "") ∧
    handleChange v ≠ getErrorMessage v ErrorType.maxLength := by
  refine ⟨?_, ?_, handleChange_ne_maxLength v⟩
  · intro h
    rw [handleChange, if_pos h]
  · intro h
    rw [handleChange, if_neg (by omega)]

/-- Claim C7, witness: a 2-character input stores the "too short" message;
a 6-character input stores the empty message. -/
theorem handleChange_minLength_message_only_witness :
    handleChange "ab" = getErrorMessage "ab" ErrorType.minLength ∧
    handleChange "abcdef" = "" :=
  ⟨(handleChange_minLength_message_only "ab").1 (by decide),
    (handleChange_minLength_message_only "abcdef").2.1 (by decide)⟩

/-- Claim C10: with the variant prop omitted (`undefined`), the guard tests
`["primary","secondary","tertiary"].includes("")`, which fails, so
`Button` always throws `"Invalid variant"`: variant is mandatory at
runtime despite being declared optional. -/
theorem button_omitted_variant_throws (val : String) (d : Option Bool) :
    Button val d none = Except.error "Invalid variant" := rfl
